import Mathlib

set_option maxRecDepth 1000000

namespace JobMatch

/-- Does `h` start with `n`?  (Character-list version of a prefix test.) -/
def firstMatches : List Char → List Char → Bool
  | [], _ => true
  | _ :: _, [] => false
  | a :: as, b :: bs => a == b && firstMatches as bs

/-- Is `n` a contiguous substring of `h`? -/
def subMatch (n : List Char) : List Char → Bool
  | [] => firstMatches n []
  | c :: t => firstMatches n (c :: t) || subMatch n t

/-- Python `needle in haystack` (substring containment). -/
def strContains (haystack needle : String) : Bool :=
  subMatch needle.toList haystack.toList

/-- Python `any(kw in text for kw in kws)`. -/
def containsAny (text : String) (kws : List String) : Bool :=
  kws.any (fun kw => strContains text kw)

/-- ASCII lower-casing of one character (all source keywords are ASCII). -/
def charLower (c : Char) : Char :=
  if 65 ≤ c.toNat ∧ c.toNat ≤ 90 then Char.ofNat (c.toNat + 32) else c

/-- Python `s.lower()` restricted to ASCII data. -/
def strLower (s : String) : String :=
  ⟨s.data.map charLower⟩

/-- A job record (`job: Dict`).  A field that may be missing from the dict is
an `Option`; `remote_friendly` is read only for truthiness, so a missing key
and `False` coincide.  `requirements`/`benefits` may also be lists in the
source; the claims only exercise the string/absent cases. -/
structure Job where
  title : Option String := none
  company : Option String := none
  location : Option String := none
  description : Option String := none
  requirements : Option String := none
  benefits : Option String := none
  salary_min : Option ℚ := none
  salary_max : Option ℚ := none
  remote_friendly : Bool := false
deriving DecidableEq

/-- `CandidateProfile` dataclass (only the fields the scorer reads, plus the
`physical_limitations` flag the claims discuss). -/
structure CandidateProfile where
  technical_skills : List String
  physical_limitations : Bool
  salary_range : ℚ × ℚ
deriving DecidableEq

/-- The default-constructed (reference) `CandidateProfile()`. -/
def refProfile : CandidateProfile where
  technical_skills :=
    ["Python", "JavaScript", "AppleScript", "Bash", "Shell Scripting",
     "AI Automation", "Data Analysis", "Process Automation",
     "System Integration", "API Development", "Database Management",
     "Git", "GitHub", "macOS", "Linux", "Network Monitoring",
     "Data Extraction", "Report Generation", "Workflow Automation"]
  physical_limitations := true
  salary_range := (65000, 150000)

/-- Python truthiness of an optional numeric field (`None` and `0` are falsy). -/
def truthyNum (o : Option ℚ) : Bool :=
  match o with
  | none => false
  | some v => v != 0

/-- `_get_job_text`: join the non-empty text parts with single spaces. -/
def getJobText (job : Job) : String :=
  String.intercalate " "
    (([job.title.getD "", job.description.getD "", job.requirements.getD "",
       job.benefits.getD ""]).filter (fun s => s ≠ ""))

/-- `_build_skill_synonyms`. -/
def skillSynonyms : List (String × List String) :=
  [("python", ["python", "py", "django", "flask", "pandas", "numpy"]),
   ("javascript", ["javascript", "js", "node.js", "nodejs", "react", "vue"]),
   ("automation", ["automation", "automated", "scripting", "workflow", "process automation"]),
   ("data analysis", ["data analysis", "analytics", "data analytics", "business intelligence", "bi"]),
   ("database", ["database", "sql", "mysql", "postgresql", "sqlite", "mongodb"]),
   ("api", ["api", "rest", "json", "web services", "integration"]),
   ("git", ["git", "github", "version control", "source control", "gitlab"]),
   ("linux", ["linux", "unix", "bash", "shell", "command line"]),
   ("network monitoring", ["network", "monitoring", "networking", "infrastructure"])]

/-- `self.skill_synonyms.get(skill.lower(), [skill.lower()])` (argument is
already lower-cased). -/
def synonymsFor (skill : String) : List String :=
  match skillSynonyms.find? (fun p => p.1 == skill) with
  | some p => p.2
  | none => [skill]

/-- `_score_technical_skills` (the returned score; the reasons list is not
modelled). -/
def scoreTechnicalSkills (p : CandidateProfile) (job : Job) : ℚ :=
  let jobText := strLower (getJobText job)
  let matched := p.technical_skills.filter
    (fun skill => (synonymsFor (strLower skill)).any (fun v => strContains jobText v))
  let score : ℚ :=
    if p.technical_skills ≠ [] then
      (matched.length : ℚ) / (p.technical_skills.length : ℚ)
    else 0
  let highValue := ["python", "automation", "data analysis", "api", "database"]
  let score :=
    if (matched.filter (fun s => highValue.contains (strLower s))) ≠ [] then
      score + 1/5
    else score
  min score 1

/-- Keyword list of `_score_industry_experience`. -/
def oilGasKeywords : List String :=
  ["oil", "gas", "petroleum", "energy", "drilling", "upstream", "downstream",
   "refinery", "pipeline", "well", "reservoir", "exploration", "production"]

/-- `_build_industry_bridges`. -/
def industryBridgeKeywords : List String :=
  ["operational efficiency", "process optimization", "data-driven",
   "asset management", "performance monitoring", "compliance tracking",
   "cost optimization", "risk management", "regulatory compliance",
   "operational data", "field data", "production data"]

/-- `_score_industry_experience`. -/
def scoreIndustryExperience (job : Job) : ℚ :=
  let jobText := strLower (getJobText job)
  let companyName := strLower (job.company.getD "")
  let hit := fun kw => strContains jobText kw || strContains companyName kw
  let score : ℚ :=
    if oilGasKeywords.any hit then 9/10
    else if ["energy", "utility", "power", "renewable"].any hit then 7/10
    else if containsAny jobText ["industrial", "manufacturing", "operations", "plant", "facility"] then 1/2
    else if containsAny jobText ["operational", "field", "technical", "systems"] then 2/5
    else 0
  if industryBridgeKeywords.any (fun kw => strContains jobText kw) then max score (3/5)
  else score

/-- One target entry of `_build_role_evolution_map`. -/
structure RoleTarget where
  title_keywords : List String
  description_keywords : List String
  score : ℚ

/-- `_build_role_evolution_map` (the single `drilling_consultant` source role,
targets in insertion order). -/
def roleEvolutionTargets : List RoleTarget :=
  [⟨["landman", "land man", "lease analyst"],
    ["lease", "mineral rights", "contract", "title", "oil gas lease"], 19/20⟩,
   ⟨["data analyst", "business analyst", "operations analyst"],
    ["data", "analysis", "operational", "field data", "production"], 17/20⟩,
   ⟨["safety", "hse", "safety coordinator", "safety manager"],
    ["safety", "compliance", "regulations", "osha", "environmental"], 9/10⟩,
   ⟨["it specialist", "systems analyst", "technical consultant"],
    ["automation", "systems", "technical", "integration", "support"], 3/4⟩,
   ⟨["automation", "process engineer", "systems engineer"],
    ["automation", "process", "optimization", "efficiency", "control"], 4/5⟩]

/-- `_score_role_transition`.  A map entry fires when a title keyword matches
and at least two description keywords occur in the job text; the first firing
entry (insertion order) wins, else the hand-written fallbacks run. -/
def scoreRoleTransition (job : Job) : ℚ :=
  let jobTitle := strLower (job.title.getD "")
  let jobText := strLower (getJobText job)
  match roleEvolutionTargets.find?
      (fun t => t.title_keywords.any (fun kw => strContains jobTitle kw)
        && decide (2 ≤ t.description_keywords.countP (fun kw => strContains jobText kw = true))) with
  | some t => t.score
  | none =>
    if strContains jobTitle "landman"
        && containsAny jobText ["lease", "contract", "mineral", "rights"] then 19/20
    else if strContains jobTitle "data analyst"
        && containsAny jobText ["operational", "field", "drilling", "production"] then 17/20
    else if strContains jobTitle "safety" then 9/10
    else if strContains jobTitle "automation" || strContains jobText "automation" then 4/5
    else 3/10

/-- `_score_location_fit`. -/
def scoreLocationFit (job : Job) : ℚ :=
  let location := strLower (job.location.getD "")
  if containsAny location ["oklahoma city", "okc", "edmond", "norman"] then 1
  else if strContains location "oklahoma" || strContains location "ok" then 4/5
  else if job.remote_friendly || containsAny location ["remote", "anywhere", "virtual"] then 9/10
  else if containsAny location ["texas", "kansas", "arkansas", "colorado"] then 2/5
  else if containsAny location ["houston", "dallas", "denver", "midland"] then 3/5
  else 1/5

/-- `job_min` of `_score_salary_fit`:
`salary_min or (salary_max * 0.8 if salary_max else target_min)`. -/
def effectiveJobMin (p : CandidateProfile) (job : Job) : ℚ :=
  if truthyNum job.salary_min then job.salary_min.getD 0
  else if truthyNum job.salary_max then job.salary_max.getD 0 * (8/10)
  else p.salary_range.1

/-- `job_max` of `_score_salary_fit`:
`salary_max or (salary_min * 1.3 if salary_min else target_max)`. -/
def effectiveJobMax (p : CandidateProfile) (job : Job) : ℚ :=
  if truthyNum job.salary_max then job.salary_max.getD 0
  else if truthyNum job.salary_min then job.salary_min.getD 0 * (13/10)
  else p.salary_range.2

/-- `overlap_min` of `_score_salary_fit`. -/
def overlapMin (p : CandidateProfile) (job : Job) : ℚ :=
  max (effectiveJobMin p job) p.salary_range.1

/-- `overlap_max` of `_score_salary_fit`. -/
def overlapMax (p : CandidateProfile) (job : Job) : ℚ :=
  min (effectiveJobMax p job) p.salary_range.2

/-- `_score_salary_fit`.  `none` models the `ZeroDivisionError` raised by
`overlap_size / target_range_size` when the profile's target range is
degenerate and the overlap branch is taken. -/
def scoreSalaryFit (p : CandidateProfile) (job : Job) : Option ℚ :=
  if !truthyNum job.salary_min && !truthyNum job.salary_max then some (1/2)
  else if overlapMin p job ≤ overlapMax p job then
    if p.salary_range.2 - p.salary_range.1 = 0 then none
    else some (min ((overlapMax p job - overlapMin p job)
        / (p.salary_range.2 - p.salary_range.1) * (12/10)) 1)
  else if effectiveJobMin p job > p.salary_range.2 then some 1
  else if p.salary_range.1 - effectiveJobMax p job ≤ 10000 then some (3/5)
  else some (1/5)

/-- `_score_remote_compatibility`. -/
def scoreRemoteCompatibility (job : Job) : ℚ :=
  let jobText := strLower (getJobText job)
  let location := strLower (job.location.getD "")
  if job.remote_friendly
      || containsAny jobText ["remote", "work from home", "telecommute", "virtual"]
      || containsAny location ["remote", "anywhere"] then 1
  else if containsAny jobText ["hybrid", "flexible", "home office", "flexible schedule"] then 4/5
  else
    let title := strLower (job.title.getD "")
    if containsAny title ["analyst", "developer", "consultant", "coordinator", "data"] then 3/5
    else if containsAny jobText ["on-site", "office", "in-person", "facility"] then 3/10
    else 2/5

/-- Company list of `_score_company_fit`. -/
def oilGasCompanies : List String :=
  ["chesapeake", "devon", "continental", "marathon", "phillips 66",
   "conocophillips", "exxon", "chevron", "bp", "shell", "oxy"]

/-- `_score_company_fit`. -/
def scoreCompanyFit (job : Job) : ℚ :=
  let company := strLower (job.company.getD "")
  let jobText := strLower (getJobText job)
  let score : ℚ :=
    if oilGasCompanies.any (fun c => strContains company c) then 9/10
    else if containsAny company ["energy", "gas", "electric", "utility", "power"] then 7/10
    else if containsAny company ["tech", "software", "data", "analytics"] then 3/5
    else 1/2
  let score :=
    if containsAny jobText ["small team", "growing company", "startup"] then score + 1/10
    else score
  min score 1

/-- Senior-tier title keywords of `_score_experience_level`. -/
def seniorTitleKeywords : List String :=
  ["senior", "sr.", "lead", "principal", "manager", "supervisor"]

/-- Mid-tier title keywords of `_score_experience_level`. -/
def midTitleKeywords : List String :=
  ["specialist", "analyst", "coordinator", "consultant"]

/-- Entry-tier title keywords of `_score_experience_level`. -/
def entryTitleKeywords : List String :=
  ["junior", "entry", "associate", "trainee"]

/-- Does the job title contain a senior-tier keyword? -/
def titleHasSeniorKw (job : Job) : Bool :=
  containsAny (strLower (job.title.getD "")) seniorTitleKeywords

/-- Does the job title contain a mid-tier keyword? -/
def titleHasMidKw (job : Job) : Bool :=
  containsAny (strLower (job.title.getD "")) midTitleKeywords

/-- Does the job title contain an entry-tier keyword? -/
def titleHasEntryKw (job : Job) : Bool :=
  containsAny (strLower (job.title.getD "")) entryTitleKeywords

/-- Does the combined job text contain the `20+ years`/`twenty years` phrase? -/
def textHasTwentyYears (job : Job) : Bool :=
  strContains (strLower (getJobText job)) "20+ years"
    || strContains (strLower (getJobText job)) "twenty years"

/-- `_score_experience_level`.  The title-tier checks return before the
experience-phrase checks in the text are reached. -/
def scoreExperienceLevel (job : Job) : ℚ :=
  let jobText := strLower (getJobText job)
  if titleHasSeniorKw job then 9/10
  else if titleHasMidKw job then 7/10
  else if titleHasEntryKw job then 3/10
  else if textHasTwentyYears job then 1
  else if strContains jobText "15+ years" || strContains jobText "10+ years" then 4/5
  else 3/5

/-- Keyword list of `_score_growth_potential`. -/
def growthKeywords : List String :=
  ["career development", "advancement", "growth", "leadership",
   "training", "certification", "education", "mentor", "promotion"]

/-- `_score_growth_potential`. -/
def scoreGrowthPotential (job : Job) : ℚ :=
  let jobText := strLower (getJobText job)
  let nMatches := growthKeywords.countP (fun kw => strContains jobText kw = true)
  if 3 ≤ nMatches then 9/10
  else if 1 ≤ nMatches then 3/5
  else 2/5

/-- Physical-demand keyword list of `_apply_bonuses_penalties`. -/
def physicalKeywords : List String :=
  ["field work", "physical", "travel", "outdoor", "lifting", "standing"]

/-- Does the combined job text contain a physical-demand keyword? -/
def hasPhysicalDemands (job : Job) : Bool :=
  containsAny (strLower (getJobText job)) physicalKeywords

/-- The physical-demands adjustment of `_apply_bonuses_penalties`; it reads
nothing from the candidate profile. -/
def physicalPenalty (job : Job) : ℚ :=
  if hasPhysicalDemands job then -(1/5) else 0

/-- Executive/senior keyword list of `_apply_bonuses_penalties`. -/
def overqualifiedKeywords : List String :=
  ["vice president", "vp ", "executive director", "chief", "ceo", "cfo", "cto",
   "senior director", "managing director", "general manager", "division manager",
   "regional manager", "senior business analyst", "principal analyst",
   "senior consultant", "principal consultant", "senior manager"]

/-- `_apply_bonuses_penalties`: the sequence of additive adjustments applied
to the weighted base score. -/
def applyBonusesPenalties (job : Job) (base : ℚ) : ℚ :=
  let jobText := strLower (getJobText job)
  let company := strLower (job.company.getD "")
  let title := strLower (job.title.getD "")
  let s := base
  let s :=
    if (strContains company "oil" || strContains company "energy")
        && containsAny jobText ["data", "automation", "analyst", "tech"] then s + 3/20
    else s
  let s :=
    if containsAny jobText ["github", "portfolio", "coding", "programming"] then s + 1/10
    else s
  let s :=
    if containsAny company ["chesapeake", "devon", "continental", "oxy", "sandridge"] then
      s + 1/20
    else s
  let s := s + physicalPenalty job
  let s := if containsAny title ["intern", "trainee", "entry-level"] then s - 3/20 else s
  let s := if containsAny title overqualifiedKeywords then s - 2/5 else s
  let s :=
    if decide (200000 < job.salary_max.getD 0)
        && !(containsAny jobText ["python", "automation", "technical", "data", "programming"]) then
      s - 7/20
    else s
  let s :=
    if containsAny jobText
        ["mba required", "masters required", "phd required", "advanced degree required"] then
      s - 1/4
    else s
  let s :=
    if containsAny jobText ["clearance", "security clearance", "classified"] then s - 1/10
    else s
  s

/-- The nine weights of `calculate_match_score`, in source order. -/
def matchWeights : List ℚ :=
  [1/4, 1/5, 1/5, 1/10, 1/10, 1/20, 1/20, 3/100, 1/50]

/-- The weighted sum `sum(scores[key] * weights[key] for key in scores)`;
`none` when `_score_salary_fit` raises. -/
def baseScore (p : CandidateProfile) (job : Job) : Option ℚ :=
  (scoreSalaryFit p job).map fun sal =>
    scoreTechnicalSkills p job * (1/4)
      + scoreIndustryExperience job * (1/5)
      + scoreRoleTransition job * (1/5)
      + scoreLocationFit job * (1/10)
      + sal * (1/10)
      + scoreRemoteCompatibility job * (1/20)
      + scoreCompanyFit job * (1/20)
      + scoreExperienceLevel job * (3/100)
      + scoreGrowthPotential job * (1/50)

/-- `calculate_match_score` (the returned score; the reasons list is not
modelled): weighted base, then bonuses/penalties, then `min(final, 1.0)`. -/
def calculateMatchScore (p : CandidateProfile) (job : Job) : Option ℚ :=
  (baseScore p job).map fun b => min (applyBonusesPenalties job b) 1

/-- A heavily penalised job: executive title, physical demands, degree and
clearance requirements, high non-technical salary. -/
def c1Job : Job :=
  { title := some "vice president", company := some "q",
    description := some "standing mba required clearance",
    salary_max := some 250000 }

/-- A job whose title triggers the safety role-transition branch. -/
def c2CeJob : Job :=
  { title := some "Safety Coordinator", company := some "Acme" }

/-- A job with only keyword-free `title` and `company` set. -/
def c2MinJob : Job :=
  { title := some "zz", company := some "qq" }

/-- The salary-overlap job of the spec scenario: range 70k–90k. -/
def c3Job : Job :=
  { salary_min := some 70000, salary_max := some 90000 }

/-- A job with a senior-tier title and the `20+ years` phrase in its text. -/
def c4CeJob : Job :=
  { title := some "Senior Engineer", description := some "20+ years" }

/-- A job whose title is tier-free while its text has the `20+ years` phrase. -/
def c4WitnessJob : Job :=
  { title := some "q", description := some "20+ years" }

/-- The VP-titled job of the penalty-dominance pair, sharing a description
that reaches the experience-phrase branch. -/
def c5VpJob : Job :=
  { title := some "Vice President of Operations", company := some "q",
    description := some "remote 20+ years" }

/-- The coordinator-titled job of the same pair. -/
def c5CoordJob : Job :=
  { title := some "Operations Coordinator", company := some "q",
    description := some "remote 20+ years" }

/-- The VP-titled job with no description at all. -/
def c5VpBare : Job :=
  { title := some "Vice President of Operations", company := some "q" }

/-- The coordinator-titled job with no description at all. -/
def c5CoordBare : Job :=
  { title := some "Operations Coordinator", company := some "q" }

/-- A job whose text contains physical-demand keywords. -/
def c6Job : Job :=
  { description := some "outdoor lifting" }

/-- The end-to-end scenario job: Senior Landman at Devon Energy. -/
def c7Job : Job :=
  { title := some "Senior Landman", company := some "Devon Energy",
    location := some "Oklahoma City, OK",
    description := some "lease mineral rights contract title oil gas",
    salary_min := some 75000, salary_max := some 105000 }

/-- A profile whose target salary range is degenerate (min = max). -/
def c9Profile : CandidateProfile :=
  { refProfile with salary_range := (80000, 80000) }

/-- A job whose salary range straddles the degenerate target point. -/
def c9Job : Job :=
  { salary_min := some 70000, salary_max := some 90000 }

/-- A job with both salary bounds present but equal to `0`. -/
def c10ZeroJob : Job :=
  { salary_min := some 0, salary_max := some 0 }

/-- A job with `salary_min = 0` and a positive `salary_max`. -/
def c10MinZeroJob : Job :=
  { salary_min := some 0, salary_max := some 90000 }

end JobMatch

namespace SmartHtml

open JobMatch (Job strContains strLower)

/-- The category side-data carried by a category table entry (the parts the
classifier and its default result touch). -/
structure CategoryData where
  subcategories : List String
  overall_probability : ℚ
  salary_range : ℚ × ℚ
deriving DecidableEq

/-- `_get_category_keywords`. -/
def getCategoryKeywords (categoryName : String) : List String :=
  if categoryName == "Oil & Gas Operations" then
    ["landman", "lease", "title", "minerals", "royalty", "drilling", "upstream",
     "production", "reservoir", "geology", "petroleum", "energy", "oil", "gas"]
  else if categoryName == "Safety & Compliance" then
    ["safety", "HSE", "compliance", "environmental", "risk", "audit", "OSHA",
     "training", "incident", "hazard", "protection", "emergency"]
  else if categoryName == "Data Analysis & Business Intelligence" then
    ["data", "analytics", "analysis", "reporting", "business intelligence", "BI",
     "dashboard", "metrics", "KPI", "SQL", "visualization", "insights"]
  else if categoryName == "Project Management & Operations" then
    ["project", "operations", "management", "coordination", "implementation",
     "planning", "execution", "stakeholder", "budget", "schedule"]
  else if categoryName == "Technical Consulting & Advisory" then
    ["consultant", "advisory", "expert", "specialist", "technical", "implementation",
     "best practices", "methodology", "strategy", "guidance"]
  else if categoryName == "Quality Assurance & Process" then
    ["quality", "QA", "QC", "process", "improvement", "standards", "procedures",
     "documentation", "certification", "inspection"]
  else if categoryName == "IT & Automation" then
    ["IT", "automation", "systems", "software", "technology", "digital",
     "programming", "development", "integration", "workflow"]
  else if categoryName == "Training & Development" then
    ["training", "development", "learning", "education", "curriculum", "instructor",
     "teaching", "knowledge", "mentoring", "coaching"]
  else if categoryName == "Customer Success & Relations" then
    ["customer", "client", "relations", "success", "account", "business development",
     "partnership", "vendor", "stakeholder"]
  else []

/-- Python `s.split()`: split on whitespace runs, dropping empty pieces. -/
def pySplitWs (s : String) : List String :=
  (s.split Char.isWhitespace).filter (fun w => w ≠ "")

/-- `f"{title} {description} {company}"` over the lower-cased fields. -/
def categoryJobText (job : Job) : String :=
  strLower (job.title.getD "") ++ " " ++ strLower (job.description.getD "")
    ++ " " ++ strLower (job.company.getD "")

/-- The tally of `_categorize_job` for one category: 2.0 per subcategory-title
word found in the job text plus 1.0 per category keyword found. -/
def categoryScore (jobText : String) (categoryName : String) (data : CategoryData) : ℚ :=
  2 * (((data.subcategories.map (fun sub => pySplitWs (strLower sub))).flatten.countP
          (fun w => strContains jobText w = true) : ℕ) : ℚ)
    + (((getCategoryKeywords categoryName).countP
          (fun kw => strContains jobText (strLower kw) = true) : ℕ) : ℚ)

/-- The classifier's result (the matched-keyword list is reported by the
source but read by nothing the claims touch, so it is not modelled). -/
structure CategoryResult where
  category : String
  category_confidence : ℚ
  category_data : CategoryData
deriving DecidableEq

/-- The default result of `_categorize_job` when no category scores. -/
def defaultCategoryResult : CategoryResult :=
  ⟨"General", 50, ⟨[], 60, (50000, 80000)⟩⟩

/-- Python `max(items, key=...)`: the first item attaining the maximal key. -/
def pickMax : List (String × CategoryData × ℚ) → Option (String × CategoryData × ℚ)
  | [] => none
  | x :: xs => some (xs.foldl (fun b y => if b.2.2 < y.2.2 then y else b) x)

/-- The `category_scores` dict of `_categorize_job`: the categories whose
tally is positive, in table order, with their score. -/
def scoredCategories (categories : List (String × CategoryData)) (job : Job) :
    List (String × CategoryData × ℚ) :=
  categories.filterMap fun c =>
    if 0 < categoryScore (categoryJobText job) c.1 c.2 then
      some (c.1, c.2, categoryScore (categoryJobText job) c.1 c.2)
    else none

/-- `_categorize_job` over a category table (a dict, modelled as an ordered
association list with distinct keys). -/
def categorizeJob (categories : List (String × CategoryData)) (job : Job) : CategoryResult :=
  match pickMax (scoredCategories categories job) with
  | some (n, d, s) => ⟨n, min (s / 10 * 100) 95, d⟩
  | none => defaultCategoryResult

/-- A one-entry category table for exercising the classifier. -/
def c8Cats : List (String × CategoryData) :=
  [("A", ⟨["alpha"], 50, (1, 2)⟩)]

/-- A job whose text contains the subcategory word `alpha`. -/
def c8Job : Job :=
  { title := some "alpha beta" }

end SmartHtml



namespace JobMatch

/-- `_score_salary_fit` never raises for the reference profile: its target
range 65000–150000 is non-degenerate, so the division is defined. -/
theorem salaryFit_ref_isSome (job : Job) :
    (scoreSalaryFit refProfile job).isSome = true := by
  unfold scoreSalaryFit
  split_ifs with h1 h2 h3 h4 h5 <;> first
    | rfl
    | (exfalso; revert h3; norm_num [refProfile])

/-- C1: the claim asserts the final score is clamped to [0.0, 1.0]; the code
only caps at 1.0, and a job stacking the executive, physical-demand,
high-salary, degree and clearance penalties scores −1.049, strictly below 0. -/
theorem C1_counterexample :
    calculateMatchScore refProfile c1Job = some (-(1049/1000)) ∧
      (-(1049/1000) : ℚ) < 0 :=
  ⟨by with_unfolding_all decide, by norm_num⟩

/-- C1 (amended): every score `calculate_match_score` returns is at most 1.0
(the `min(final_score, 1.0)` cap); no lower clamp exists. -/
theorem C1_score_le_one (p : CandidateProfile) (job : Job) (v : ℚ)
    (h : calculateMatchScore p job = some v) : v ≤ 1 := by
  unfold calculateMatchScore at h
  cases hb : baseScore p job with
  | none => rw [hb] at h; simp at h
  | some b =>
    rw [hb] at h
    have hv : min (applyBonusesPenalties job b) 1 = v := by simpa using h
    rw [← hv]
    exact min_le_right _ _

/-- C1 witness: the upper bound at a concrete job. -/
theorem C1_witness :
    calculateMatchScore refProfile ({} : Job) = some (201/1000) ∧
      ((201 : ℚ)/1000) ≤ 1 :=
  ⟨by with_unfolding_all decide, C1_score_le_one refProfile {} (201/1000) (by with_unfolding_all decide)⟩

/-- C3: the claim asserts the 70k–90k job against the 65k–150k target yields
a salary-fit score above 0.5; the overlap formula gives
(20000/85000)·1.2 = 24/85 ≈ 0.282 < 0.5. -/
theorem C3_counterexample :
    scoreSalaryFit refProfile c3Job = some (24/85) ∧ ((24 : ℚ)/85) < 1/2 :=
  ⟨by with_unfolding_all decide, by norm_num⟩

/-- C3 (amended): the 70k–90k job yields exactly overlap_ratio × 1.2 =
(20000/85000)·(12/10) = 24/85 ≈ 0.282 — a positive-overlap score strictly
above the 0.2 below-range floor, but not above 0.5. -/
theorem C3_overlap_score :
    scoreSalaryFit refProfile c3Job = some ((20000/85000) * (12/10) : ℚ) ∧
      ((1 : ℚ)/5) < (20000/85000) * (12/10) :=
  ⟨by with_unfolding_all decide, by norm_num⟩

/-- C4: the claim asserts the `20+ years` phrase overrides the title-tier
check; in the code the title tiers return first, so a title with `senior`
scores 0.9 even when the text contains `20+ years`. -/
theorem C4_counterexample :
    scoreExperienceLevel c4CeJob = 9/10 ∧ ((9 : ℚ)/10) ≠ 1 :=
  ⟨by with_unfolding_all decide, by norm_num⟩

/-- C4 (amended): the `20+ years`/`twenty years` phrase yields 1.0 only when
no title-tier keyword matches — the tier check takes precedence, not the
phrase. -/
theorem C4_phrase_when_no_tier (job : Job)
    (hs : titleHasSeniorKw job = false) (hm : titleHasMidKw job = false)
    (he : titleHasEntryKw job = false) (ht : textHasTwentyYears job = true) :
    scoreExperienceLevel job = 1 := by
  unfold scoreExperienceLevel
  rw [hs, hm, he, ht]
  simp

/-- C4 witness: a tier-free title with the phrase scores 1.0. -/
theorem C4_witness :
    titleHasSeniorKw c4WitnessJob = false ∧ titleHasMidKw c4WitnessJob = false ∧
      titleHasEntryKw c4WitnessJob = false ∧ textHasTwentyYears c4WitnessJob = true ∧
      scoreExperienceLevel c4WitnessJob = 1 :=
  ⟨by with_unfolding_all decide, by with_unfolding_all decide, by with_unfolding_all decide, by with_unfolding_all decide,
   C4_phrase_when_no_tier c4WitnessJob (by with_unfolding_all decide) (by with_unfolding_all decide) (by with_unfolding_all decide) (by with_unfolding_all decide)⟩

/-- C5: the claim asserts a ≥ 0.40 gap for every otherwise-identical pair;
with the shared description `remote 20+ years` the VP job scores −0.057 and
the coordinator job 0.334 — a gap of 0.391 < 0.40, because the title also
moves the experience-level sub-score (1.0 vs 0.7). -/
theorem C5_counterexample :
    calculateMatchScore refProfile c5VpJob = some (-(57/1000)) ∧
      calculateMatchScore refProfile c5CoordJob = some (167/500) ∧
      (167/500 : ℚ) - (-(57/1000)) < 2/5 :=
  ⟨by with_unfolding_all decide, by with_unfolding_all decide, by norm_num⟩

/-- C5 (amended): the −0.40 executive penalty engages on the VP title and not
on the coordinator title; for the bare pair (title and company only) the
final scores are −0.099 and 0.314, a gap of 0.413 ≥ 0.40, but title-sensitive
sub-scores can narrow the gap below 0.40 in general. -/
theorem C5_penalty_gap_bare :
    calculateMatchScore refProfile c5VpBare = some (-(99/1000)) ∧
      calculateMatchScore refProfile c5CoordBare = some (157/500) ∧
      (2/5 : ℚ) ≤ (157/500 : ℚ) - (-(99/1000)) :=
  ⟨by with_unfolding_all decide, by with_unfolding_all decide, by norm_num⟩

/-- C6: the physical-demands penalty is applied unconditionally — the final
score does not depend on the profile's `physical_limitations` flag, and the
−0.20 deduction engages whenever a physical-demand keyword occurs. -/
theorem C6_penalty_profile_independent (p : CandidateProfile) (b : Bool) (job : Job) :
    calculateMatchScore { p with physical_limitations := b } job
        = calculateMatchScore p job ∧
      (hasPhysicalDemands job = true → physicalPenalty job = -(1/5)) := by
  refine ⟨rfl, fun h => ?_⟩
  unfold physicalPenalty
  rw [h]
  simp

/-- C6 witness: flag flip and penalty at a concrete physical-demands job. -/
theorem C6_witness :
    calculateMatchScore { refProfile with physical_limitations := false } c6Job
        = calculateMatchScore refProfile c6Job ∧
      physicalPenalty c6Job = -(1/5) :=
  ⟨(C6_penalty_profile_independent refProfile false c6Job).1,
   (C6_penalty_profile_independent refProfile false c6Job).2 (by with_unfolding_all decide)⟩

/-- C7: the claim asserts the Senior Landman scenario scores above 0.75; the
code returns exactly 563/850 ≈ 0.662. -/
theorem C7_counterexample :
    calculateMatchScore refProfile c7Job = some (563/850) ∧
      ¬ ((3/4 : ℚ) < 563/850) :=
  ⟨by with_unfolding_all decide, by norm_num⟩

/-- C7 (amended): the scenario hits the landman role-transition path
(sub-score exactly 0.95) and the final score is exactly 563/850 ≈ 0.662 —
above 0.65 but not above 0.75. -/
theorem C7_landman_scenario :
    scoreRoleTransition c7Job = 19/20 ∧
      calculateMatchScore refProfile c7Job = some (563/850) ∧
      (13/20 : ℚ) < 563/850 :=
  ⟨by with_unfolding_all decide, by with_unfolding_all decide, by norm_num⟩

/-- C10: a salary bound equal to 0 is falsy, exactly like an absent bound:
both bounds 0 (or both absent) give the 0.5 fallback, and a zero floor with a
positive ceiling is estimated as `salary_max * 0.8`. -/
theorem C10_zero_salary_as_absent (p : CandidateProfile) (job : Job) :
    (job.salary_min = some 0 → job.salary_max = some 0 →
        scoreSalaryFit p job = some (1/2)) ∧
      (job.salary_min = none → job.salary_max = none →
        scoreSalaryFit p job = some (1/2)) ∧
      (∀ m : ℚ, job.salary_min = some 0 → job.salary_max = some m → 0 < m →
        effectiveJobMin p job = m * (8/10)) := by
  refine ⟨fun h1 h2 => ?_, fun h1 h2 => ?_, fun m h1 h2 hm => ?_⟩
  · unfold scoreSalaryFit
    rw [h1, h2]
    simp [truthyNum]
  · unfold scoreSalaryFit
    rw [h1, h2]
    simp [truthyNum]
  · unfold effectiveJobMin
    rw [h1, h2]
    simp [truthyNum, bne, hm.ne']

/-- C10 witness: the fallback and the estimated floor at concrete jobs. -/
theorem C10_witness :
    scoreSalaryFit refProfile c10ZeroJob = some (1/2) ∧
      effectiveJobMin refProfile c10MinZeroJob = 90000 * (8/10) :=
  ⟨(C10_zero_salary_as_absent refProfile c10ZeroJob).1 rfl rfl,
   (C10_zero_salary_as_absent refProfile c10MinZeroJob).2.2 90000 rfl rfl (by norm_num)⟩

end JobMatch

namespace JobMatch

/-- C2: the claim asserts every sub-scorer falls back to its default for a
job with only `title` and `company` set; a title containing `safety` takes
the safety role-transition branch and scores 0.90, not the 0.3 fallback. -/
theorem C2_counterexample :
    scoreRoleTransition c2CeJob = 9/10 ∧ ((9 : ℚ)/10) ≠ 3/10 :=
  ⟨by with_unfolding_all decide, by norm_num⟩

/-- C2 (amended): scoring is total (no exception) against the reference
profile for every job record; the sub-scorers whose inputs are absent yield
their documented fallbacks for every job (salary 0.5 when both bounds are
falsy, location 0.2 when location and the remote flag are absent), and for a
title/company pair free of scoring keywords all six fallbacks hold, giving
final score 0.201. -/
theorem C2_total_with_fallbacks :
    (∀ job : Job, (calculateMatchScore refProfile job).isSome = true)
    ∧ (∀ job : Job, job.location = none → job.remote_friendly = false →
        scoreLocationFit job = 1/5)
    ∧ (∀ job : Job, truthyNum job.salary_min = false → truthyNum job.salary_max = false →
        scoreSalaryFit refProfile job = some (1/2))
    ∧ (scoreSalaryFit refProfile c2MinJob = some (1/2) ∧ scoreLocationFit c2MinJob = 1/5
       ∧ scoreRemoteCompatibility c2MinJob = 2/5 ∧ scoreRoleTransition c2MinJob = 3/10
       ∧ scoreGrowthPotential c2MinJob = 2/5 ∧ scoreExperienceLevel c2MinJob = 3/5
       ∧ calculateMatchScore refProfile c2MinJob = some (201/1000)) := by
  refine ⟨fun job => ?_, fun job h1 h2 => ?_, fun job h1 h2 => ?_, ?_⟩
  · have h := salaryFit_ref_isSome job
    unfold calculateMatchScore baseScore
    cases hs : scoreSalaryFit refProfile job with
    | none => rw [hs] at h; simp at h
    | some v => simp
  · unfold scoreLocationFit
    rw [h1, h2]
    with_unfolding_all decide
  · unfold scoreSalaryFit
    rw [h1, h2]
    simp
  · refine ⟨?_, ?_, ?_, ?_, ?_, ?_, ?_⟩ <;> with_unfolding_all decide

/-- C2 witness: the location fallback at a concrete job with no location. -/
theorem C2_witness : scoreLocationFit c2CeJob = 1/5 :=
  C2_total_with_fallbacks.2.1 c2CeJob rfl rfl

/-- C9: the claim quantifies over every candidate profile; a profile whose
target salary range is degenerate (65k = 65k would do, here 80k–80k) drives
`overlap_size / target_range_size` into a division by zero on any job whose
range brackets the point, so the salary sub-scorer yields no score at all. -/
theorem C9_counterexample : scoreSalaryFit c9Profile c9Job = none := by
  with_unfolding_all decide

/-- Bounds for `_score_technical_skills`. -/
theorem scoreTechnicalSkills_bounds (p : CandidateProfile) (job : Job) :
    0 ≤ scoreTechnicalSkills p job ∧ scoreTechnicalSkills p job ≤ 1 := by
  refine ⟨?_, ?_⟩ <;> unfold scoreTechnicalSkills <;> dsimp only
  · refine le_min ?_ (by norm_num)
    split_ifs <;> positivity
  · exact min_le_right _ _

/-- Bounds for `_score_industry_experience`. -/
theorem scoreIndustryExperience_bounds (job : Job) :
    0 ≤ scoreIndustryExperience job ∧ scoreIndustryExperience job ≤ 1 := by
  refine ⟨?_, ?_⟩ <;> unfold scoreIndustryExperience <;> dsimp only <;>
    split_ifs <;> norm_num [le_max_iff, max_le_iff]

/-- Bounds for `_score_role_transition`. -/
theorem scoreRoleTransition_bounds (job : Job) :
    0 ≤ scoreRoleTransition job ∧ scoreRoleTransition job ≤ 1 := by
  unfold scoreRoleTransition
  dsimp only
  cases hfind : roleEvolutionTargets.find?
      (fun t => t.title_keywords.any (fun kw => strContains (strLower (job.title.getD "")) kw)
        && decide (2 ≤ t.description_keywords.countP
            (fun kw => strContains (strLower (getJobText job)) kw = true))) with
  | none => split_ifs <;> norm_num
  | some t =>
    have ht : t ∈ roleEvolutionTargets := List.mem_of_find?_eq_some hfind
    simp only [roleEvolutionTargets, List.mem_cons, List.mem_singleton] at ht
    rcases ht with rfl | rfl | rfl | rfl | rfl | h
    · norm_num
    · norm_num
    · norm_num
    · norm_num
    · norm_num
    · simp at h

/-- Bounds for `_score_location_fit`. -/
theorem scoreLocationFit_bounds (job : Job) :
    0 ≤ scoreLocationFit job ∧ scoreLocationFit job ≤ 1 := by
  refine ⟨?_, ?_⟩ <;> unfold scoreLocationFit <;> dsimp only <;> split_ifs <;> norm_num

/-- Bounds for `_score_remote_compatibility`. -/
theorem scoreRemoteCompatibility_bounds (job : Job) :
    0 ≤ scoreRemoteCompatibility job ∧ scoreRemoteCompatibility job ≤ 1 := by
  refine ⟨?_, ?_⟩ <;> unfold scoreRemoteCompatibility <;> dsimp only <;>
    split_ifs <;> norm_num

/-- Bounds for `_score_company_fit`. -/
theorem scoreCompanyFit_bounds (job : Job) :
    0 ≤ scoreCompanyFit job ∧ scoreCompanyFit job ≤ 1 := by
  refine ⟨?_, ?_⟩ <;> unfold scoreCompanyFit <;> dsimp only
  · refine le_min ?_ (by norm_num)
    split_ifs <;> norm_num
  · exact min_le_right _ _

/-- Bounds for `_score_experience_level`. -/
theorem scoreExperienceLevel_bounds (job : Job) :
    0 ≤ scoreExperienceLevel job ∧ scoreExperienceLevel job ≤ 1 := by
  refine ⟨?_, ?_⟩ <;> unfold scoreExperienceLevel <;> dsimp only <;>
    split_ifs <;> norm_num

/-- Bounds for `_score_growth_potential`. -/
theorem scoreGrowthPotential_bounds (job : Job) :
    0 ≤ scoreGrowthPotential job ∧ scoreGrowthPotential job ≤ 1 := by
  refine ⟨?_, ?_⟩ <;> unfold scoreGrowthPotential <;> dsimp only <;>
    split_ifs <;> norm_num

/-- `_score_salary_fit` on a non-degenerate target range: defined and in
[0, 1]. -/
theorem scoreSalaryFit_bounds (p : CandidateProfile) (job : Job)
    (hrange : p.salary_range.1 ≠ p.salary_range.2) :
    ∃ v, scoreSalaryFit p job = some v ∧ 0 ≤ v ∧ v ≤ 1 := by
  unfold scoreSalaryFit
  split_ifs with h1 h2 h3 h4 h5
  · exact ⟨1/2, rfl, by norm_num, by norm_num⟩
  · exact absurd (sub_eq_zero.mp h3).symm hrange
  · refine ⟨_, rfl, le_min ?_ (by norm_num), min_le_right _ _⟩
    have htle : p.salary_range.1 ≤ p.salary_range.2 :=
      le_trans (le_trans (le_max_right _ _) h2) (min_le_right _ _)
    have hden : 0 < p.salary_range.2 - p.salary_range.1 :=
      sub_pos.mpr (lt_of_le_of_ne htle hrange)
    have hnum : 0 ≤ overlapMax p job - overlapMin p job := sub_nonneg.mpr h2
    positivity
  · exact ⟨1, rfl, by norm_num, le_refl 1⟩
  · exact ⟨3/5, rfl, by norm_num, by norm_num⟩
  · exact ⟨1/5, rfl, by norm_num, by norm_num⟩

/-- C9 (amended): for every job and every profile with a non-empty skill
list and a non-degenerate target salary range, all nine sub-scores lie in
[0, 1], the nine weights sum to 1, and the weighted base score lies in
[0, 1].  (For a degenerate target range the salary sub-scorer divides by
zero instead of returning a score.) -/
theorem C9_subscore_bounds (p : CandidateProfile) (job : Job)
    (hskills : p.technical_skills ≠ [])
    (hrange : p.salary_range.1 ≠ p.salary_range.2) :
    (0 ≤ scoreTechnicalSkills p job ∧ scoreTechnicalSkills p job ≤ 1)
    ∧ (0 ≤ scoreIndustryExperience job ∧ scoreIndustryExperience job ≤ 1)
    ∧ (0 ≤ scoreRoleTransition job ∧ scoreRoleTransition job ≤ 1)
    ∧ (0 ≤ scoreLocationFit job ∧ scoreLocationFit job ≤ 1)
    ∧ (∃ v, scoreSalaryFit p job = some v ∧ 0 ≤ v ∧ v ≤ 1)
    ∧ (0 ≤ scoreRemoteCompatibility job ∧ scoreRemoteCompatibility job ≤ 1)
    ∧ (0 ≤ scoreCompanyFit job ∧ scoreCompanyFit job ≤ 1)
    ∧ (0 ≤ scoreExperienceLevel job ∧ scoreExperienceLevel job ≤ 1)
    ∧ (0 ≤ scoreGrowthPotential job ∧ scoreGrowthPotential job ≤ 1)
    ∧ matchWeights.sum = 1
    ∧ (∃ b, baseScore p job = some b ∧ 0 ≤ b ∧ b ≤ 1) := by
  obtain ⟨v, hv, hv0, hv1⟩ := scoreSalaryFit_bounds p job hrange
  obtain ⟨ht0, ht1⟩ := scoreTechnicalSkills_bounds p job
  obtain ⟨hi0, hi1⟩ := scoreIndustryExperience_bounds job
  obtain ⟨hr0, hr1⟩ := scoreRoleTransition_bounds job
  obtain ⟨hl0, hl1⟩ := scoreLocationFit_bounds job
  obtain ⟨hm0, hm1⟩ := scoreRemoteCompatibility_bounds job
  obtain ⟨hc0, hc1⟩ := scoreCompanyFit_bounds job
  obtain ⟨he0, he1⟩ := scoreExperienceLevel_bounds job
  obtain ⟨hg0, hg1⟩ := scoreGrowthPotential_bounds job
  refine ⟨⟨ht0, ht1⟩, ⟨hi0, hi1⟩, ⟨hr0, hr1⟩, ⟨hl0, hl1⟩, ⟨v, hv, hv0, hv1⟩,
    ⟨hm0, hm1⟩, ⟨hc0, hc1⟩, ⟨he0, he1⟩, ⟨hg0, hg1⟩, by norm_num [matchWeights], ?_⟩
  refine ⟨scoreTechnicalSkills p job * (1/4) + scoreIndustryExperience job * (1/5)
      + scoreRoleTransition job * (1/5) + scoreLocationFit job * (1/10) + v * (1/10)
      + scoreRemoteCompatibility job * (1/20) + scoreCompanyFit job * (1/20)
      + scoreExperienceLevel job * (3/100) + scoreGrowthPotential job * (1/50), ?_, ?_, ?_⟩
  · rw [baseScore, hv]
    rfl
  · linarith [ht0, hi0, hr0, hl0, hv0, hm0, hc0, he0, hg0]
  · linarith [ht1, hi1, hr1, hl1, hv1, hm1, hc1, he1, hg1]

/-- C9 witness: the technical-skills bound at the reference profile. -/
theorem C9_witness :
    0 ≤ scoreTechnicalSkills refProfile ({} : Job) ∧
      scoreTechnicalSkills refProfile ({} : Job) ≤ 1 :=
  (C9_subscore_bounds refProfile {} (by decide) (by norm_num [refProfile])).1

end JobMatch

namespace SmartHtml

/-- The fold of `pickMax` keeps the accumulator when nothing beats it. -/
theorem foldlKeep (b : String × CategoryData × ℚ) (l : List (String × CategoryData × ℚ))
    (h : ∀ y ∈ l, y.2.2 ≤ b.2.2) :
    l.foldl (fun acc y => if acc.2.2 < y.2.2 then y else acc) b = b := by
  induction l with
  | nil => rfl
  | cons y ys ih =>
    rw [List.foldl_cons, if_neg (not_lt.mpr (h y (List.mem_cons_self y ys)))]
    exact ih fun z hz => h z (List.mem_cons_of_mem y hz)

/-- The fold of `pickMax` reaches the first strict maximum and keeps it. -/
theorem foldlReach (r : String × CategoryData × ℚ) (l₁ l₂ : List (String × CategoryData × ℚ)) :
    ∀ b, b.2.2 < r.2.2 → (∀ x ∈ l₁, x.2.2 < r.2.2) → (∀ y ∈ l₂, y.2.2 ≤ r.2.2) →
      (l₁ ++ r :: l₂).foldl (fun acc y => if acc.2.2 < y.2.2 then y else acc) b = r := by
  induction l₁ with
  | nil =>
    intro b hb _ h₂
    rw [List.nil_append, List.foldl_cons, if_pos hb]
    exact foldlKeep r l₂ h₂
  | cons x xs ih =>
    intro b hb h₁ h₂
    rw [List.cons_append, List.foldl_cons]
    by_cases hx : b.2.2 < x.2.2
    · rw [if_pos hx]
      exact ih x (h₁ x (List.mem_cons_self x xs))
        (fun z hz => h₁ z (List.mem_cons_of_mem x hz)) h₂
    · rw [if_neg hx]
      exact ih b hb (fun z hz => h₁ z (List.mem_cons_of_mem x hz)) h₂

/-- Python `max(..., key=score)`: the first item attaining the maximum wins. -/
theorem pickMax_first_max (l₁ : List (String × CategoryData × ℚ))
    (r : String × CategoryData × ℚ) (l₂ : List (String × CategoryData × ℚ))
    (h₁ : ∀ x ∈ l₁, x.2.2 < r.2.2) (h₂ : ∀ y ∈ l₂, y.2.2 ≤ r.2.2) :
    pickMax (l₁ ++ r :: l₂) = some r := by
  cases l₁ with
  | nil =>
    rw [List.nil_append]
    show some (l₂.foldl (fun acc y => if acc.2.2 < y.2.2 then y else acc) r) = some r
    rw [foldlKeep r l₂ h₂]
  | cons a as =>
    rw [List.cons_append]
    show some ((as ++ r :: l₂).foldl (fun acc y => if acc.2.2 < y.2.2 then y else acc) a)
      = some r
    rw [foldlReach r as l₂ a (h₁ a (List.mem_cons_self a as))
      (fun z hz => h₁ z (List.mem_cons_of_mem a hz)) h₂]

/-- C8: the classifier tallies 2.0 per subcategory-title word plus 1.0 per
category keyword (`categoryScore`); it returns the first-encountered category
attaining the highest positive score with confidence min(score/10·100, 95),
and when every category tallies zero it returns the `General` default with
confidence 50 and salary range (50000, 80000). -/
theorem C8_categorize_spec (cats : List (String × CategoryData)) (job : JobMatch.Job) :
    ((∀ c ∈ cats, categoryScore (categoryJobText job) c.1 c.2 ≤ 0) →
        categorizeJob cats job = defaultCategoryResult)
    ∧ (∀ (pre post : List (String × CategoryData)) (c : String × CategoryData),
        cats = pre ++ c :: post →
        0 < categoryScore (categoryJobText job) c.1 c.2 →
        (∀ x ∈ pre, categoryScore (categoryJobText job) x.1 x.2
            < categoryScore (categoryJobText job) c.1 c.2) →
        (∀ x ∈ post, categoryScore (categoryJobText job) x.1 x.2
            ≤ categoryScore (categoryJobText job) c.1 c.2) →
        categorizeJob cats job =
          ⟨c.1, min (categoryScore (categoryJobText job) c.1 c.2 / 10 * 100) 95, c.2⟩) := by
  constructor
  · intro hall
    unfold categorizeJob
    have hnil : scoredCategories cats job = [] := by
      unfold scoredCategories
      rw [List.filterMap_eq_nil]
      intro c hc
      rw [if_neg (not_lt.mpr (hall c hc))]
    rw [hnil]
    rfl
  · intro pre post c hcats hpos hpre hpost
    subst hcats
    unfold categorizeJob
    have hsplit : scoredCategories (pre ++ c :: post) job
        = scoredCategories pre job
          ++ (c.1, c.2, categoryScore (categoryJobText job) c.1 c.2)
            :: scoredCategories post job := by
      unfold scoredCategories
      rw [List.filterMap_append, List.filterMap_cons, if_pos hpos]
    have hmem : ∀ (l : List (String × CategoryData))
        (x : String × CategoryData × ℚ), x ∈ scoredCategories l job →
        ∃ a ∈ l, x.2.2 = categoryScore (categoryJobText job) a.1 a.2 := by
      intro l x hx
      obtain ⟨a, ha, hfa⟩ := List.mem_filterMap.mp hx
      by_cases h0 : 0 < categoryScore (categoryJobText job) a.1 a.2
      · rw [if_pos h0] at hfa
        exact ⟨a, ha, by rw [← Option.some_inj.mp hfa]⟩
      · rw [if_neg h0] at hfa
        exact absurd hfa (by simp)
    rw [hsplit, pickMax_first_max _ _ _
      (fun x hx => by obtain ⟨a, ha, hs⟩ := hmem pre x hx; rw [hs]; exact hpre a ha)
      (fun x hx => by obtain ⟨a, ha, hs⟩ := hmem post x hx; rw [hs]; exact hpost a ha)]

/-- C8 witness: the single-category table at a matching job. -/
theorem C8_witness :
    categorizeJob c8Cats c8Job = ⟨"A", 20, ⟨["alpha"], 50, (1, 2)⟩⟩ := by
  rw [(C8_categorize_spec c8Cats c8Job).2 [] [] ("A", ⟨["alpha"], 50, (1, 2)⟩) rfl
    (by with_unfolding_all decide) (by simp) (by simp)]
  with_unfolding_all decide

end SmartHtml
